import Mathlib

/-!
Verification of the OTP gateway HTTP handler layer (handlers.go).

The handlers are embedded as pure state-passing functions over an abstract
record-store interface.  The Redis-backed store itself is not part of the
handler sources, so it is modelled from the specification of the Record
Store (`specStore` below); the handler logic (`checkOTP`, `handleSetOTP`,
`handleCheckOTP`, `generateRandomString`, `isLocked`) is translated
directly from the Go source.
-/

set_option autoImplicit false

namespace Otpgateway

/-- Character sets from handlers.go: `alphaChars`, `numChars`, `alphaNumChars`. -/
def alphaChars : String := "ABCDEFGHIJKLMNOPQRSTUVWXYZabcdefghijklmnopqrstuvwxyz"

def numChars : String := "0123456789"

def alphaNumChars : String := alphaChars ++ numChars

/-- The OTP record (`otpgateway.OTP`).  Durations are modelled in whole
seconds; the field `ns` is Go's `Namespace`, `otp` is the stored passcode. -/
structure OTP where
  ns : String
  id : String
  otp : String
  toAddr : String
  description : String
  provider : String
  maxAttempts : Nat
  attempts : Nat
  ttl : Nat
  closed : Bool
deriving DecidableEq, Repr

/-- The Go zero value of the OTP struct, returned alongside store errors. -/
def OTP.zero : OTP := ⟨"", "", "", "", "", "", 0, 0, 0, false⟩

/-- `isLocked` from handlers.go: the OTP is locked after exceeding attempts. -/
def isLocked (otp : OTP) : Bool :=
  if otp.attempts > otp.maxAttempts then true else false

/-- Errors surfaced at the store interface boundary: `ErrNotExist`, the
spec's `AlreadyLocked` create failure, and operational store failures. -/
inductive StoreErr where
  | notExist
  | alreadyLocked
  | unavailable (msg : String)
deriving DecidableEq, Repr

/-- The record-store interface used by the handlers (`Check`, `Set`, `Close`),
as a state-passing signature: each operation returns a result and the new
store state. -/
structure StoreIface (σ : Type) where
  check : σ → String → String → Bool → (Except StoreErr OTP) × σ
  set : σ → String → String → OTP → (Except StoreErr OTP) × σ
  close : σ → String → String → (Except StoreErr OTP) × σ

/-- Store contents: a map from (namespace, id) keys to records. -/
abbrev StoreState := String × String → Option OTP

def storeLookup (st : StoreState) (ns id : String) : Option OTP := st (ns, id)

def storeWrite (st : StoreState) (ns id : String) (o : OTP) : StoreState :=
  fun k => if k = (ns, id) then some o else st k

def emptyStore : StoreState := fun _ => none

/-- Modelled from the spec: the Record Store backing the handlers (the
Redis-backed implementation is not among the handler sources).  `Read`
fails `NotFound` on an absent key and, when asked, atomically increments
`attempts` as part of the same operation; `Create` writes the record with
`attempts` initialized to 1 and fails `AlreadyLocked` instead of
overwriting a locked record; `Close` sets `closed = true` on the current
record. -/
def specStore : StoreIface StoreState where
  check st ns id increment :=
    match storeLookup st ns id with
    | none => (.error .notExist, st)
    | some o =>
      if increment then
        (.ok { o with attempts := o.attempts + 1 },
          storeWrite st ns id { o with attempts := o.attempts + 1 })
      else (.ok o, st)
  set st ns id o :=
    match storeLookup st ns id with
    | some ex =>
      if isLocked ex then (.error .alreadyLocked, st)
      else (.ok { o with ns := ns, id := id, attempts := 1 },
        storeWrite st ns id { o with ns := ns, id := id, attempts := 1 })
    | none =>
      (.ok { o with ns := ns, id := id, attempts := 1 },
        storeWrite st ns id { o with ns := ns, id := id, attempts := 1 })
  close st ns id :=
    match storeLookup st ns id with
    | none => (.error .notExist, st)
    | some o => (.ok { o with closed := true }, storeWrite st ns id { o with closed := true })

/-- Classification of the errors `checkOTP` returns, carrying the data the
Go error strings embed (the locked message embeds the remaining TTL). -/
inductive OTPError where
  | storeErr (e : StoreErr)
  | tooManyAttempts (ttlSeconds : Nat)
  | mismatch
deriving DecidableEq, Repr

/-- The error strings produced on the `checkOTP` failure paths in handlers.go. -/
def otpErrorMessage : OTPError → String
  | .storeErr .notExist => "the OTP does not exist"
  | .storeErr .alreadyLocked => "attempts have been locked"
  | .storeErr (.unavailable m) => m
  | .tooManyAttempts t => "Too many attempts. Please retry after " ++ toString t ++ " seconds."
  | .mismatch => "OTP does not match"

/-- `checkOTP` from handlers.go: an incrementing read, the lock check, the
passcode comparison, and — on the success path only — `store.Close`, whose
result the Go code discards (only the new store state survives), after
which the local copy's `Closed` is set and returned. -/
def checkOTP {σ : Type} (S : StoreIface σ) (st : σ) (ns id otp : String) :
    (OTP × Option OTPError) × σ :=
  match S.check st ns id true with
  | (.error e, st2) => ((OTP.zero, some (.storeErr e)), st2)
  | (.ok out, st2) =>
    if isLocked out then ((out, some (.tooManyAttempts out.ttl)), st2)
    else if out.otp ≠ otp then ((out, some .mismatch), st2)
    else (({ out with closed := true }, none), (S.close st2 ns id).2)

/-- `generateRandomString` from handlers.go: maps each random byte `v` to
`chars[v % len(chars)]`.  The byte source is passed explicitly; a source
shorter than the requested length models a failing random read. -/
def generateRandomString (totalLen : Nat) (chars : String) (randBytes : List Nat) : Option String :=
  if randBytes.length < totalLen then none
  else some (String.mk ((randBytes.take totalLen).map
    (fun v => chars.toList.getD (v % chars.length) 'A')))

/-- A delivery channel (`otpgateway.Provider`) at its interface boundary;
`ValidateAddress` is modelled as a boolean predicate. -/
structure Provider where
  id : String
  channelName : String
  description : String
  validAddress : String → Bool
  maxOTPLen : Nat
  maxBodyLen : Nat

/-- The app configuration threaded through the handlers. -/
structure App (σ : Type) where
  store : StoreIface σ
  providers : List (String × Provider)
  otpTTL : Nat
  otpMaxAttempts : Nat
  rootURL : String

/-- The `data` field of the JSON envelope: nothing, the `otpErrResp`
lock triple, a bare OTP record, an `otpResp` record-plus-URL, or `true`. -/
inductive RespData where
  | none
  | otpErr (ttlSeconds attempts maxAttempts : Nat)
  | otp (o : OTP)
  | otpWithURL (o : OTP) (url : String)
  | boolTrue
deriving DecidableEq, Repr

/-- An HTTP response: status code, envelope status, message and data. -/
structure HttpOut where
  code : Nat
  status : String
  message : String
  data : RespData
deriving DecidableEq, Repr

/-- `sendResponse` from handlers.go: a 200 success envelope. -/
def sendResponse (data : RespData) : HttpOut :=
  { code := 200, status := "success", message := "", data := data }

/-- `sendErrorResponse` from handlers.go. -/
def sendErrorResponse (message : String) (code : Nat) (data : RespData) : HttpOut :=
  { code := code, status := "error", message := message, data := data }

/-- `getURL` from handlers.go. -/
def getURL (rootURL : String) (otp : OTP) (check : Bool) : String :=
  if check then rootURL ++ "/otp/" ++ otp.ns ++ "/" ++ otp.id ++ "?otp=" ++ otp.otp ++ "&action=check"
  else rootURL ++ "/otp/" ++ otp.ns ++ "/" ++ otp.id

def lookupProvider (l : List (String × Provider)) (k : String) : Option Provider :=
  (l.find? (fun kv => kv.1 == k)).map (fun kv => kv.2)

/-- The tail of `handleSetOTP` after the create key is fixed: OTP
generation, the non-incrementing pre-create read, the lock check, the
`Set`, and the push. -/
def setOTPAfterID {σ : Type} (app : App σ) (st : σ)
    (ns id provider description toAddr otpVal : String)
    (otpRand : List Nat) (pushErr : Option String) (pro : Provider) : HttpOut × σ :=
  match (if otpVal = "" then generateRandomString pro.maxOTPLen numChars otpRand else some otpVal) with
  | Option.none => (sendErrorResponse "error generating OTP" 500 .none, st)
  | some otpVal2 =>
    match app.store.check st ns id false with
    | (.error .notExist, st2) => setOTPCreate app st2 ns id provider description toAddr otpVal2 pushErr
    | (.error _, st2) => (sendErrorResponse "error checking OTP status" 400 .none, st2)
    | (.ok otp, st2) =>
      if isLocked otp then
        (sendErrorResponse ("OTP attempts exceeded. Retry after " ++ toString otp.ttl ++ " seconds.")
          400 (.otpErr otp.ttl otp.attempts app.otpMaxAttempts), st2)
      else setOTPCreate app st2 ns id provider description toAddr otpVal2 pushErr
where
  setOTPCreate (app : App σ) (st : σ)
      (ns id provider description toAddr otpVal : String) (pushErr : Option String) : HttpOut × σ :=
    match app.store.set st ns id
        { ns := "", id := "", otp := otpVal, toAddr := toAddr, description := description,
          provider := provider, maxAttempts := app.otpMaxAttempts, attempts := 0,
          ttl := app.otpTTL, closed := false } with
    | (.error _, st2) => (sendErrorResponse "error setting OTP" 500 .none, st2)
    | (.ok newOTP, st2) =>
      match pushErr with
      | some _ => (sendErrorResponse "error sending OTP" 500 .none, st2)
      | Option.none => (sendResponse (.otpWithURL newOTP (getURL app.rootURL newOTP false)), st2)

/-- `handleSetOTP` from handlers.go.  Note the id branch order: `len(id) < 6`
is tested first, so the `id == ""` generation branch is kept but unreachable,
exactly as in the source. -/
def handleSetOTP {σ : Type} (app : App σ) (st : σ)
    (ns id provider description toAddr otpVal : String)
    (idRand otpRand : List Nat) (pushErr : Option String) : HttpOut × σ :=
  match lookupProvider app.providers provider with
  | Option.none => (sendErrorResponse "unknown provider" 400 .none, st)
  | some pro =>
    if pro.validAddress toAddr = false then
      (sendErrorResponse "invalid `to` address" 400 .none, st)
    else if id.length < 6 then
      (sendErrorResponse "ID should be min 6 chars" 400 .none, st)
    else if id = "" then
      match generateRandomString 32 alphaNumChars idRand with
      | Option.none => (sendErrorResponse "error generating ID" 500 .none, st)
      | some i => setOTPAfterID app st ns i provider description toAddr otpVal otpRand pushErr pro
    else setOTPAfterID app st ns id provider description toAddr otpVal otpRand pushErr pro

/-- `handleCheckOTP` from handlers.go: validation, then `checkOTP`; on any
`checkOTP` error the record it returned is the 400 response's data. -/
def handleCheckOTP {σ : Type} (app : App σ) (st : σ) (ns id otpVal : String) : HttpOut × σ :=
  if id.length < 6 then (sendErrorResponse "ID should be min 6 chars" 400 .none, st)
  else if otpVal = "" then (sendErrorResponse "`otp` is empty" 400 .none, st)
  else
    match checkOTP app.store st ns id otpVal with
    | ((out, some e), st2) => (sendErrorResponse (otpErrorMessage e) 400 (.otp out), st2)
    | ((_, Option.none), st2) => (sendResponse .boolTrue, st2)

/-- A record after the incrementing read. -/
def bump (o : OTP) : OTP := { o with attempts := o.attempts + 1 }

/-- Number of byte values in [0, 256) that the generator's byte-to-symbol
map `chars[v % len(chars)]` sends to alphabet position `i`. -/
def preimageCount (chars : String) (i : Nat) : Nat :=
  ((List.range 256).filter (fun v => v % chars.length == i)).length

/-- The dummy provider from handlers_test.go. -/
def dummyProv : Provider :=
  { id := "dummyprovider", channelName := "dummychannel", description := "dummy description",
    validAddress := fun a => a == "dummy@to.com", maxOTPLen := 6, maxBodyLen := 102400 }

/-- The test app from handlers_test.go: TTL 10 seconds, 3 max attempts. -/
def testApp : App StoreState :=
  { store := specStore, providers := [("dummyprovider", dummyProv)],
    otpTTL := 10, otpMaxAttempts := 3, rootURL := "http://localhost" }

/-! ### Basic lemmas about the store model and the lock predicate -/

theorem storeLookup_write_self (st : StoreState) (ns id : String) (o : OTP) :
    storeLookup (storeWrite st ns id o) ns id = some o := by
  simp [storeLookup, storeWrite]

theorem storeLookup_write_other (st : StoreState) (ns id ns2 id2 : String) (o : OTP)
    (h : (ns2, id2) ≠ (ns, id)) :
    storeLookup (storeWrite st ns id o) ns2 id2 = storeLookup st ns2 id2 := by
  simp [storeLookup, storeWrite, h]

theorem isLocked_iff (o : OTP) : isLocked o = true ↔ o.attempts > o.maxAttempts := by
  simp [isLocked]

theorem isLocked_bump_of_locked (o : OTP) (h : isLocked o = true) : isLocked (bump o) = true := by
  simp [isLocked, bump] at h ⊢
  omega

theorem bump_ttl (o : OTP) : (bump o).ttl = o.ttl := rfl

theorem bump_otp (o : OTP) : (bump o).otp = o.otp := rfl

theorem bump_closed (o : OTP) : (bump o).closed = o.closed := rfl

/-! ### Unfolding lemmas for checkOTP over the spec-modelled store -/

theorem checkOTP_specStore_none (st : StoreState) (ns id v : String)
    (h : storeLookup st ns id = none) :
    checkOTP specStore st ns id v = ((OTP.zero, some (.storeErr .notExist)), st) := by
  simp [checkOTP, specStore, h]

theorem checkOTP_specStore_locked (st : StoreState) (ns id v : String) (o : OTP)
    (h : storeLookup st ns id = some o) (hl : isLocked (bump o) = true) :
    checkOTP specStore st ns id v =
      ((bump o, some (.tooManyAttempts o.ttl)), storeWrite st ns id (bump o)) := by
  simp only [checkOTP, specStore, h, bump] at *
  simp [hl]

theorem checkOTP_specStore_mismatch (st : StoreState) (ns id v : String) (o : OTP)
    (h : storeLookup st ns id = some o) (hl : isLocked (bump o) = false)
    (hm : ¬ (o.otp = v)) :
    checkOTP specStore st ns id v = ((bump o, some .mismatch), storeWrite st ns id (bump o)) := by
  simp only [checkOTP, specStore, h, bump] at *
  simp [hl, hm]

theorem checkOTP_specStore_match (st : StoreState) (ns id v : String) (o : OTP)
    (h : storeLookup st ns id = some o) (hl : isLocked (bump o) = false)
    (hm : o.otp = v) :
    checkOTP specStore st ns id v =
      (({ o with attempts := o.attempts + 1, closed := true }, none),
        storeWrite (storeWrite st ns id (bump o)) ns id
          { o with attempts := o.attempts + 1, closed := true }) := by
  subst hm
  simp only [checkOTP, specStore, h, bump] at *
  simp [hl, storeLookup_write_self]

/-- C1: for every Verify that reaches the store, `closed` is set to true iff
the supplied passcode equals the stored one and the (post-increment) record
is not locked; on every failure path (NotFound, Locked, Mismatch) Close is
not invoked — the stored `closed` flag is unchanged — and `closed` is never
unset on any key. -/
theorem verify_close_semantics (st : StoreState) (ns id v : String) :
    ((checkOTP specStore st ns id v).1.2 = Option.none ↔
      ∃ o, storeLookup st ns id = some o ∧ isLocked (bump o) = false ∧ o.otp = v)
  ∧ ((checkOTP specStore st ns id v).1.2 = Option.none →
      (checkOTP specStore st ns id v).1.1.closed = true ∧
      (storeLookup (checkOTP specStore st ns id v).2 ns id).map OTP.closed = some true)
  ∧ (∀ e, (checkOTP specStore st ns id v).1.2 = some e →
      (storeLookup (checkOTP specStore st ns id v).2 ns id).map OTP.closed
        = (storeLookup st ns id).map OTP.closed)
  ∧ (∀ ns2 id2, (storeLookup st ns2 id2).map OTP.closed = some true →
      (storeLookup (checkOTP specStore st ns id v).2 ns2 id2).map OTP.closed = some true) := by
  rcases hcase : storeLookup st ns id with _ | o
  · rw [checkOTP_specStore_none st ns id v hcase]
    refine ⟨?_, ?_, ?_, ?_⟩
    · simp
    · simp
    · intro e _
      simp [hcase]
    · intro ns2 id2 h2; exact h2
  · by_cases hl : isLocked (bump o) = true
    · rw [checkOTP_specStore_locked st ns id v o hcase hl]
      refine ⟨?_, ?_, ?_, ?_⟩
      · constructor
        · intro h; simp at h
        · rintro ⟨o2, ho2, hl2, _⟩
          injection ho2 with ho3
          subst ho3
          rw [hl] at hl2
          simp at hl2
      · intro h; simp at h
      · intro e _
        simp [storeLookup_write_self, bump]
      · intro ns2 id2 h2
        by_cases hk : (ns2, id2) = (ns, id)
        · injection hk with hk1 hk2
          subst hk1; subst hk2
          rw [hcase] at h2
          simp only [Option.map_some'] at h2
          simp [storeLookup_write_self, bump, h2]
        · rw [storeLookup_write_other st ns id ns2 id2 _ hk]
          exact h2
    · rw [Bool.not_eq_true] at hl
      by_cases hm : o.otp = v
      · rw [checkOTP_specStore_match st ns id v o hcase hl hm]
        refine ⟨?_, ?_, ?_, ?_⟩
        · simp only [true_iff]
          exact ⟨o, rfl, hl, hm⟩
        · intro _
          refine ⟨rfl, ?_⟩
          simp [storeLookup_write_self]
        · intro e he
          simp at he
        · intro ns2 id2 h2
          by_cases hk : (ns2, id2) = (ns, id)
          · injection hk with hk1 hk2
            subst hk1; subst hk2
            simp [storeLookup_write_self]
          · rw [storeLookup_write_other _ _ _ _ _ _ hk,
              storeLookup_write_other _ _ _ _ _ _ hk]
            exact h2
      · rw [checkOTP_specStore_mismatch st ns id v o hcase hl hm]
        refine ⟨?_, ?_, ?_, ?_⟩
        · constructor
          · intro h; simp at h
          · rintro ⟨o2, ho2, _, hm2⟩
            injection ho2 with ho3
            subst ho3
            exact absurd hm2 hm
        · intro h; simp at h
        · intro e _
          simp [storeLookup_write_self, bump]
        · intro ns2 id2 h2
          by_cases hk : (ns2, id2) = (ns, id)
          · injection hk with hk1 hk2
            subst hk1; subst hk2
            rw [hcase] at h2
            simp only [Option.map_some'] at h2
            simp [storeLookup_write_self, bump, h2]
          · rw [storeLookup_write_other st ns id ns2 id2 _ hk]
            exact h2

/-! ### Reduction lemmas for handleSetOTP -/

theorem handleSetOTP_to_afterID {σ : Type} (app : App σ) (st : σ)
    (ns id provider description toAddr otpVal : String)
    (idRand otpRand : List Nat) (pushErr : Option String) (pro : Provider)
    (hp : lookupProvider app.providers provider = some pro)
    (ha : pro.validAddress toAddr = true) (hlen : ¬ (id.length < 6)) :
    handleSetOTP app st ns id provider description toAddr otpVal idRand otpRand pushErr
      = setOTPAfterID app st ns id provider description toAddr otpVal otpRand pushErr pro := by
  have hid : ¬ (id = "") := by
    intro h
    subst h
    simp at hlen
  simp [handleSetOTP, hp, ha, hlen, hid]

theorem setOTPAfterID_locked_state (provs : List (String × Provider)) (ttl maxA : Nat)
    (root : String) (st : StoreState) (ns id provider description toAddr otpVal : String)
    (otpRand : List Nat) (pushErr : Option String) (pro : Provider) (o : OTP)
    (h1 : storeLookup st ns id = some o) (h2 : isLocked o = true) :
    (setOTPAfterID (App.mk specStore provs ttl maxA root) st ns id provider description
        toAddr otpVal otpRand pushErr pro).2 = st
  ∧ (setOTPAfterID (App.mk specStore provs ttl maxA root) st ns id provider description
        toAddr otpVal otpRand pushErr pro).1.status = "error" := by
  have hchk : specStore.check st ns id false = (.ok o, st) := by
    simp [specStore, h1]
  cases hgen : (if otpVal = "" then generateRandomString pro.maxOTPLen numChars otpRand
      else some otpVal) with
  | none =>
    constructor <;> simp [setOTPAfterID, hgen, sendErrorResponse]
  | some otpVal2 =>
    constructor <;> simp [setOTPAfterID, hgen, hchk, h2, sendErrorResponse]

/-- C2: `isLocked` returns true exactly when `attempts > maxAttempts`; for a
locked stored record no Verify succeeds (checkOTP fails Locked), and no Issue
overwrites it: handleSetOTP fails before calling Set, leaving the whole store
state untouched. -/
theorem locked_blocks_verify_and_issue (st : StoreState) (ns id : String) (o : OTP)
    (h1 : storeLookup st ns id = some o) (h2 : isLocked o = true) :
    (∀ r : OTP, isLocked r = decide (r.attempts > r.maxAttempts))
  ∧ (∀ v, (checkOTP specStore st ns id v).1.2 = some (.tooManyAttempts o.ttl))
  ∧ (∀ (provs : List (String × Provider)) (ttl maxA : Nat)
        (root provider description toAddr otpVal : String)
        (idRand otpRand : List Nat) (pushErr : Option String),
      (handleSetOTP (App.mk specStore provs ttl maxA root) st ns id provider description
          toAddr otpVal idRand otpRand pushErr).2 = st
      ∧ (handleSetOTP (App.mk specStore provs ttl maxA root) st ns id provider description
          toAddr otpVal idRand otpRand pushErr).1.status = "error") := by
  refine ⟨?_, ?_, ?_⟩
  · intro r
    by_cases h : r.attempts > r.maxAttempts <;> simp [isLocked, h]
  · intro v
    rw [checkOTP_specStore_locked st ns id v o h1 (isLocked_bump_of_locked o h2)]
  · intro provs ttl maxA root provider description toAddr otpVal idRand otpRand pushErr
    rcases hp : lookupProvider provs provider with _ | pro
    · constructor <;> simp [handleSetOTP, hp, sendErrorResponse]
    · rcases ha : pro.validAddress toAddr with _ | _
      · constructor <;> simp [handleSetOTP, hp, ha, sendErrorResponse]
      · by_cases hlen : id.length < 6
        · constructor <;> simp [handleSetOTP, hp, ha, hlen, sendErrorResponse]
        · rw [handleSetOTP_to_afterID (App.mk specStore provs ttl maxA root) st ns id provider
            description toAddr otpVal idRand otpRand pushErr pro hp ha hlen]
          exact setOTPAfterID_locked_state provs ttl maxA root st ns id provider description
            toAddr otpVal otpRand pushErr pro o h1 h2

/-- A locked record and store, fixtures for concrete evaluation. -/
def lockedRec : OTP :=
  { ns := "myapp", id := "myotp123", otp := "123456", toAddr := "dummy@to.com",
    description := "", provider := "dummyprovider", maxAttempts := 3, attempts := 5,
    ttl := 10, closed := false }

def lockedStore : StoreState := storeWrite emptyStore "myapp" "myotp123" lockedRec

/-- Witness for C2: the theorem applied to a concrete locked record. -/
theorem locked_blocks_witness :
    (∀ r : OTP, isLocked r = decide (r.attempts > r.maxAttempts))
  ∧ (∀ v, (checkOTP specStore lockedStore "myapp" "myotp123" v).1.2
      = some (.tooManyAttempts lockedRec.ttl))
  ∧ (∀ (provs : List (String × Provider)) (ttl maxA : Nat)
        (root provider description toAddr otpVal : String)
        (idRand otpRand : List Nat) (pushErr : Option String),
      (handleSetOTP (App.mk specStore provs ttl maxA root) lockedStore "myapp" "myotp123"
          provider description toAddr otpVal idRand otpRand pushErr).2 = lockedStore
      ∧ (handleSetOTP (App.mk specStore provs ttl maxA root) lockedStore "myapp" "myotp123"
          provider description toAddr otpVal idRand otpRand pushErr).1.status = "error") :=
  locked_blocks_verify_and_issue lockedStore "myapp" "myotp123" lockedRec (by decide) (by decide)

/-- C3 counterexample: a Verify against a locked record (attempts 5 > max 3)
fails Locked, yet the stored attempts value changes from 5 to 6 — the
incrementing read mutates the record, refuting the claim that attempts is
not changed by the failed check. -/
theorem locked_verify_increments_cex :
    isLocked lockedRec = true
  ∧ lockedRec.attempts = 5
  ∧ (checkOTP specStore lockedStore "myapp" "myotp123" "123456").1.2
      = some (.tooManyAttempts 10)
  ∧ (storeLookup (checkOTP specStore lockedStore "myapp" "myotp123" "123456").2
      "myapp" "myotp123").map OTP.attempts = some 6 := by decide

/-- C3 amended: a Verify against a locked record fails with the Locked error
carrying the remaining TTL, and the returned record carries the attempt
counts; no mutation happens beyond the incrementing read itself — attempts
grows by exactly 1, closed is unchanged, and no other key is touched. -/
theorem locked_verify_fails_and_increments (st : StoreState) (ns id v : String) (o : OTP)
    (h1 : storeLookup st ns id = some o) (h2 : isLocked o = true) :
    (checkOTP specStore st ns id v).1.2 = some (.tooManyAttempts o.ttl)
  ∧ (checkOTP specStore st ns id v).1.1 = bump o
  ∧ (storeLookup (checkOTP specStore st ns id v).2 ns id).map OTP.attempts
      = some (o.attempts + 1)
  ∧ (storeLookup (checkOTP specStore st ns id v).2 ns id).map OTP.closed = some o.closed
  ∧ (∀ ns2 id2, (ns2, id2) ≠ (ns, id) →
      storeLookup (checkOTP specStore st ns id v).2 ns2 id2 = storeLookup st ns2 id2) := by
  rw [checkOTP_specStore_locked st ns id v o h1 (isLocked_bump_of_locked o h2)]
  refine ⟨rfl, rfl, ?_, ?_, ?_⟩
  · simp [storeLookup_write_self, bump]
  · simp [storeLookup_write_self, bump]
  · intro ns2 id2 hk
    exact storeLookup_write_other st ns id ns2 id2 _ hk

/-- Witness for the amended C3, at a concrete locked record. -/
theorem locked_verify_fails_witness :
    (checkOTP specStore lockedStore "myapp" "myotp123" "999").1.2
      = some (.tooManyAttempts lockedRec.ttl)
  ∧ (checkOTP specStore lockedStore "myapp" "myotp123" "999").1.1 = bump lockedRec
  ∧ (storeLookup (checkOTP specStore lockedStore "myapp" "myotp123" "999").2
      "myapp" "myotp123").map OTP.attempts = some (lockedRec.attempts + 1)
  ∧ (storeLookup (checkOTP specStore lockedStore "myapp" "myotp123" "999").2
      "myapp" "myotp123").map OTP.closed = some lockedRec.closed
  ∧ (∀ ns2 id2, (ns2, id2) ≠ ("myapp", "myotp123") →
      storeLookup (checkOTP specStore lockedStore "myapp" "myotp123" "999").2 ns2 id2
        = storeLookup lockedStore ns2 id2) :=
  locked_verify_fails_and_increments lockedStore "myapp" "myotp123" "999" lockedRec
    (by decide) (by decide)

/-- Scenario B (TestCheckOTP in handlers_test.go): Issue with the explicit
id "myotp123" and passcode "123456" against the test app on an empty store. -/
def scenarioSetResult : HttpOut × StoreState :=
  handleSetOTP testApp emptyStore "myapp" "myotp123" "dummyprovider" "" "dummy@to.com" "123456"
    [] [] Option.none

/-- Scenario C: the Verify that follows B, with the wrong passcode "123". -/
def scenarioCheckResult : (OTP × Option OTPError) × StoreState :=
  checkOTP specStore scenarioSetResult.2 "myapp" "myotp123" "123"

/-- C4 counterexample: after Issue (attempts 1) and one wrong Verify, the
record's attempts value is 2, not 3 as the claim states — the test suite
asserts 2 as well. -/
theorem scenario_bc_attempts_cex :
    scenarioSetResult.1.status = "success"
  ∧ scenarioCheckResult.1.2 = some OTPError.mismatch
  ∧ isLocked scenarioCheckResult.1.1 = false
  ∧ scenarioCheckResult.1.1.attempts = 2
  ∧ ¬ (scenarioCheckResult.1.1.attempts = 3) := by decide

/-- C4 amended: in Scenario B then C the Verify fails Mismatch, the record
remains unlocked, and its attempts value becomes 2 (1 from issue plus 1 from
the failed check), both in the returned record and in the store. -/
theorem scenario_bc_attempts_two :
    scenarioCheckResult.1.2 = some OTPError.mismatch
  ∧ isLocked scenarioCheckResult.1.1 = false
  ∧ scenarioCheckResult.1.1.attempts = 2
  ∧ (storeLookup scenarioCheckResult.2 "myapp" "myotp123").map OTP.attempts = some 2
  ∧ (storeLookup scenarioCheckResult.2 "myapp" "myotp123").map OTP.closed = some false := by
  decide

/-- C5: the handler rejects an empty (absent) id with the 6-character
validation error: the length test comes first, so the id-generation branch
is dead code, contradicting the source comment above it and the spec, which
say an absent id gets a generated 32-character id and the request proceeds.
Evaluated at the failing input id = "" with 32 random bytes available (the
generation itself would have succeeded). -/
theorem empty_id_rejected :
    handleSetOTP testApp emptyStore "myapp" "" "dummyprovider" "" "dummy@to.com" "123456"
        (List.range 32) [] Option.none
      = (sendErrorResponse "ID should be min 6 chars" 400 RespData.none, emptyStore)
  ∧ ¬ (generateRandomString 32 alphaNumChars (List.range 32) = Option.none) :=
  ⟨rfl, by decide⟩

/-- An unlocked record whose passcode will match, and its store. -/
def goodRec : OTP :=
  { ns := "myapp", id := "myotp123", otp := "123456", toAddr := "dummy@to.com",
    description := "", provider := "dummyprovider", maxAttempts := 3, attempts := 1,
    ttl := 10, closed := false }

def goodStore : StoreState := storeWrite emptyStore "myapp" "myotp123" goodRec

/-- A store whose Close fails operationally while reads still succeed. -/
def badCloseStore : StoreIface StoreState :=
  { specStore with close := fun st _ _ => (.error (.unavailable "connection lost"), st) }

/-- C6 counterexample: against a store whose Close fails, a matching Verify
still reports success (no error in the result) — the Close error is
discarded by checkOTP, not surfaced to the caller. -/
theorem close_error_swallowed_cex :
    (badCloseStore.close (storeWrite goodStore "myapp" "myotp123" (bump goodRec))
        "myapp" "myotp123").1 = .error (.unavailable "connection lost")
  ∧ (checkOTP badCloseStore goodStore "myapp" "myotp123" "123456").1.2 = Option.none
  ∧ (checkOTP badCloseStore goodStore "myapp" "myotp123" "123456").1.1.closed = true :=
  ⟨rfl, rfl, rfl⟩

/-- C6 amended: checkOTP propagates every error of the incrementing read to
the caller, but the result of store.Close on the success path is discarded —
Verify reports success exactly when the read succeeds, the record is
unlocked and the passcode matches, regardless of whether Close failed. -/
theorem check_errors_propagated_close_discarded {σ : Type} (S : StoreIface σ) (st : σ)
    (ns id v : String) :
    ((checkOTP S st ns id v).1.2 = Option.none ↔
      ∃ out st2, S.check st ns id true = (.ok out, st2)
        ∧ isLocked out = false ∧ out.otp = v)
  ∧ (∀ e st2, S.check st ns id true = (.error e, st2) →
      checkOTP S st ns id v = ((OTP.zero, some (.storeErr e)), st2)) := by
  constructor
  · rcases hchk : S.check st ns id true with ⟨e | out, st2⟩
    · simp [checkOTP, hchk]
    · by_cases hl : isLocked out = true
      · simp [checkOTP, hchk, hl]
      · rw [Bool.not_eq_true] at hl
        by_cases hm : out.otp = v
        · simp [checkOTP, hchk, hl, hm]
        · simp [checkOTP, hchk, hl, hm]
  · intro e st2 h
    simp [checkOTP, h]

/-- C7 counterexample: under the byte-to-symbol map v ↦ chars[v % len],
symbol 0 of the 62-character alphabet has 5 byte preimages while symbol 61
has 4, and digit 0 of the numeric alphabet has 26 while digit 9 has 25: the
symbols do not all have an equal number of source-byte preimages, so the
draw is not uniform. -/
theorem preimage_bias_cex :
    preimageCount alphaNumChars 0 = 5
  ∧ preimageCount alphaNumChars 61 = 4
  ∧ preimageCount numChars 0 = 26
  ∧ preimageCount numChars 9 = 25
  ∧ ¬ (preimageCount alphaNumChars 0 = preimageCount alphaNumChars 61) := by decide

theorem generateRandomString_length_mem (n : Nat) (chars : String) (bytes : List Nat)
    (s : String) (hpos : 0 < chars.length)
    (h : generateRandomString n chars bytes = some s) :
    s.length = n ∧ ∀ c ∈ s.toList, c ∈ chars.toList := by
  unfold generateRandomString at h
  by_cases hlen : bytes.length < n
  · simp [hlen] at h
  · simp only [hlen, if_false] at h
    obtain rfl := Option.some.inj h.symm
    constructor
    · show (String.mk ((bytes.take n).map _)).data.length = n
      simp [Nat.min_eq_left (Nat.le_of_not_lt hlen)]
    · intro c hc
      have hc2 : c ∈ (bytes.take n).map
          (fun v => chars.toList.getD (v % chars.length) 'A') := hc
      obtain ⟨v, _, rfl⟩ := List.mem_map.mp hc2
      have hlt : v % chars.length < chars.toList.length := Nat.mod_lt v hpos
      rw [List.getD_eq_getElem chars.toList 'A' hlt]
      exact List.getElem_mem hlt

/-- C7 amended: for both alphabets the code uses, the generator returns
exactly n symbols, each drawn from the alphabet by mapping an independent
random byte through chars[v % len(chars)]; the draw is not uniform: for the
62-symbol alphanumeric alphabet positions 0–7 have 5 byte preimages and the
rest 4; for the 10-symbol numeric alphabet digits 0–5 have 26 and the rest
25. -/
theorem generator_length_alphabet_bias :
    (∀ (n : Nat) (bytes : List Nat) (s : String),
        generateRandomString n alphaNumChars bytes = some s →
        s.length = n ∧ ∀ c ∈ s.toList, c ∈ alphaNumChars.toList)
  ∧ (∀ (n : Nat) (bytes : List Nat) (s : String),
        generateRandomString n numChars bytes = some s →
        s.length = n ∧ ∀ c ∈ s.toList, c ∈ numChars.toList)
  ∧ (∀ i, i < 62 → preimageCount alphaNumChars i = if i < 8 then 5 else 4)
  ∧ (∀ i, i < 10 → preimageCount numChars i = if i < 6 then 26 else 25) := by
  refine ⟨?_, ?_, ?_, ?_⟩
  · intro n bytes s h
    exact generateRandomString_length_mem n alphaNumChars bytes s (by decide) h
  · intro n bytes s h
    exact generateRandomString_length_mem n numChars bytes s (by decide) h
  · decide
  · decide

/-- A store that is down: every operation fails operationally. -/
def downStore : StoreIface Unit where
  check st _ _ _ := (.error (.unavailable "connection refused"), st)
  set st _ _ _ := (.error (.unavailable "connection refused"), st)
  close st _ _ := (.error (.unavailable "connection refused"), st)

def downApp : App Unit :=
  { store := downStore, providers := [("dummyprovider", dummyProv)],
    otpTTL := 10, otpMaxAttempts := 3, rootURL := "http://localhost" }

/-- C8: when the non-incrementing pre-create read during Issue fails with a
store error other than NotFound, the handler responds 400 Bad Request — not
the 500 internal error required by the spec's taxonomy and used by every
sibling internal-failure path (Set, push, generator).  Evaluated at the
failing input: a fully valid Issue request against an unavailable store. -/
theorem store_error_on_issue_gives_400 :
    (handleSetOTP downApp () "myapp" "myotp123" "dummyprovider" "" "dummy@to.com" "123456"
        [] [] Option.none).1
      = sendErrorResponse "error checking OTP status" 400 RespData.none
  ∧ ¬ ((handleSetOTP downApp () "myapp" "myotp123" "dummyprovider" "" "dummy@to.com" "123456"
        [] [] Option.none).1.code = 500) := by decide

theorem setOTPAfterID_locked_payload (provs : List (String × Provider)) (ttl maxA : Nat)
    (root : String) (st : StoreState) (ns id provider description toAddr otpVal : String)
    (otpRand : List Nat) (pushErr : Option String) (pro : Provider) (o : OTP)
    (h1 : storeLookup st ns id = some o) (h2 : isLocked o = true) (hv : ¬ (otpVal = "")) :
    setOTPAfterID (App.mk specStore provs ttl maxA root) st ns id provider description
        toAddr otpVal otpRand pushErr pro
      = (sendErrorResponse
          ("OTP attempts exceeded. Retry after " ++ toString o.ttl ++ " seconds.")
          400 (.otpErr o.ttl o.attempts maxA), st) := by
  have hchk : specStore.check st ns id false = (.ok o, st) := by
    simp [specStore, h1]
  simp [setOTPAfterID, hv, hchk, h2]

/-- C9 counterexample: on the Verify endpoint a locked record's 400 response
carries the full current OTP record as data, not the
{ttl_seconds, attempts, max_attempts} triple the claim requires for both
endpoints. -/
theorem verify_lock_payload_cex :
    (handleCheckOTP testApp lockedStore "myapp" "myotp123" "999999").1.data
      = RespData.otp (bump lockedRec)
  ∧ ¬ ((handleCheckOTP testApp lockedStore "myapp" "myotp123" "999999").1.data
      = RespData.otpErr (bump lockedRec).ttl (bump lockedRec).attempts
          lockedRec.maxAttempts) := by decide

/-- C9 amended: on the Issue endpoint a locked record's 400 response data is
the {ttl_seconds, attempts, max_attempts} triple; on the Verify endpoint the
lock response's data is instead the full current (post-increment) OTP
record. -/
theorem lock_payload_by_endpoint (provs : List (String × Provider)) (ttl maxA : Nat)
    (root provider description toAddr otpVal : String) (idRand otpRand : List Nat)
    (pushErr : Option String) (pro : Provider)
    (st : StoreState) (ns id : String) (o : OTP)
    (h1 : storeLookup st ns id = some o) (h2 : isLocked o = true)
    (hp : lookupProvider provs provider = some pro)
    (ha : pro.validAddress toAddr = true)
    (hlen : ¬ (id.length < 6)) (hv : ¬ (otpVal = "")) :
    (handleSetOTP (App.mk specStore provs ttl maxA root) st ns id provider description toAddr
        otpVal idRand otpRand pushErr).1.data = RespData.otpErr o.ttl o.attempts maxA
  ∧ (∀ v, ¬ (v = "") →
      (handleCheckOTP (App.mk specStore provs ttl maxA root) st ns id v).1.data
        = RespData.otp (bump o)) := by
  constructor
  · rw [handleSetOTP_to_afterID (App.mk specStore provs ttl maxA root) st ns id provider
      description toAddr otpVal idRand otpRand pushErr pro hp ha hlen,
      setOTPAfterID_locked_payload provs ttl maxA root st ns id provider description toAddr
        otpVal otpRand pushErr pro o h1 h2 hv]
    rfl
  · intro v hv2
    have hlock2 := isLocked_bump_of_locked o h2
    simp [handleCheckOTP, hlen, hv2, sendErrorResponse,
      checkOTP_specStore_locked st ns id v o h1 hlock2]

/-- Witness for the amended C9, at a concrete locked record and the test
app configuration. -/
theorem lock_payload_witness :
    (handleSetOTP (App.mk specStore [("dummyprovider", dummyProv)] 10 3 "http://localhost")
        lockedStore "myapp" "myotp123" "dummyprovider" "" "dummy@to.com" "123456"
        [] [] Option.none).1.data
      = RespData.otpErr lockedRec.ttl lockedRec.attempts 3
  ∧ (∀ v, ¬ (v = "") →
      (handleCheckOTP (App.mk specStore [("dummyprovider", dummyProv)] 10 3 "http://localhost")
          lockedStore "myapp" "myotp123" v).1.data
        = RespData.otp (bump lockedRec)) :=
  lock_payload_by_endpoint [("dummyprovider", dummyProv)] 10 3 "http://localhost"
    "dummyprovider" "" "dummy@to.com" "123456" [] [] Option.none dummyProv
    lockedStore "myapp" "myotp123" lockedRec (by decide) (by decide) rfl rfl
    (by decide) (by decide)

/-- C10: whenever Verify via the POST endpoint fails Mismatch or Locked, the
400 error response's data is the full current (post-increment) OTP record,
whose otp field still equals the stored secret passcode — so the secret is
disclosed to a caller who did not supply the correct passcode. -/
theorem verify_failure_discloses_passcode (provs : List (String × Provider)) (ttl maxA : Nat)
    (root : String) (st : StoreState) (ns id v : String) (o : OTP)
    (h1 : storeLookup st ns id = some o)
    (hlen : ¬ (id.length < 6)) (hv : ¬ (v = ""))
    (hfail : isLocked (bump o) = true ∨ ¬ (o.otp = v)) :
    (handleCheckOTP (App.mk specStore provs ttl maxA root) st ns id v).1.code = 400
  ∧ (handleCheckOTP (App.mk specStore provs ttl maxA root) st ns id v).1.status = "error"
  ∧ (handleCheckOTP (App.mk specStore provs ttl maxA root) st ns id v).1.data
      = RespData.otp (bump o)
  ∧ (bump o).otp = o.otp := by
  rcases hfail with hl | hm
  · simp [handleCheckOTP, hlen, hv,
      checkOTP_specStore_locked st ns id v o h1 hl, sendErrorResponse, bump]
  · by_cases hl : isLocked (bump o) = true
    · simp [handleCheckOTP, hlen, hv,
        checkOTP_specStore_locked st ns id v o h1 hl, sendErrorResponse, bump]
    · rw [Bool.not_eq_true] at hl
      simp [handleCheckOTP, hlen, hv,
        checkOTP_specStore_mismatch st ns id v o h1 hl hm, sendErrorResponse, bump]

/-- Witness for C10: the conclusion at a concrete locked record with a wrong
passcode. -/
theorem verify_failure_disclosure_witness :
    (handleCheckOTP (App.mk specStore [] 10 3 "http://localhost")
        lockedStore "myapp" "myotp123" "999999").1.code = 400
  ∧ (handleCheckOTP (App.mk specStore [] 10 3 "http://localhost")
        lockedStore "myapp" "myotp123" "999999").1.status = "error"
  ∧ (handleCheckOTP (App.mk specStore [] 10 3 "http://localhost")
        lockedStore "myapp" "myotp123" "999999").1.data = RespData.otp (bump lockedRec)
  ∧ (bump lockedRec).otp = lockedRec.otp :=
  verify_failure_discloses_passcode [] 10 3 "http://localhost" lockedStore
    "myapp" "myotp123" "999999" lockedRec (by decide) (by decide) (by decide)
    (Or.inl (by decide))

end Otpgateway
